import Mathlib

/-!
Verification of the crash-recovery and bootloader-update core of
`libraries/AP_HAL_ChibiOS/Util.cpp`.

The `Util` member functions are shallowly embedded from the source file.
The `stm32_*` primitives they call live in `hwdef/common/watchdog.c`,
which is part of the repository but not in the provided sources; those
are modelled from the spec (section 6: a persistent backup region with
fixed fields for armed flag, safety state, home position and attitude,
surviving a watchdog reset, plus a hardware-latched reset-cause flag).
-/

namespace HeliPilot

/-- The reset-surviving backup region together with the hardware-latched
reset-cause flag, as seen by one boot of the system. -/
structure BackupRegion where
  armed : Bool
  safety_state : Bool
  home_lat : Int
  home_lon : Int
  home_alt_cm : Int
  att_roll_cd : Int
  att_pitch_cd : Int
  att_yaw_cd : Int
deriving DecidableEq, Repr

/-- System state visible to `Util`: the latched reset-cause flag and the
backup region contents. -/
structure SysState where
  watchdog_reset : Bool
  backup : BackupRegion
deriving DecidableEq, Repr

/-- Modelled from the spec: `stm32_was_watchdog_reset` (in
`hwdef/common/watchdog.c`, not under the provided sources) reads the
hardware-latched reset-cause flag saying whether the prior reset was
forced by the watchdog. -/
def stm32_was_watchdog_reset (s : SysState) : Bool :=
  s.watchdog_reset

/-- Modelled from the spec: reads the safety-switch state stored in the
backup region at boot. -/
def stm32_get_boot_backup_safety_state (s : SysState) : Bool :=
  s.backup.safety_state

/-- Modelled from the spec: reads the armed flag stored in the backup
region at boot. -/
def stm32_get_boot_backup_armed (s : SysState) : Bool :=
  s.backup.armed

/-- Modelled from the spec: writes the armed flag into the backup
region. -/
def stm32_set_backup_armed (s : SysState) (b : Bool) : SysState :=
  { s with backup := { s.backup with armed := b } }

/-- Modelled from the spec: writes the home position fields of the
backup region. -/
def stm32_set_backup_home (s : SysState) (lat lon alt_cm : Int) : SysState :=
  { s with backup :=
      { s.backup with home_lat := lat, home_lon := lon, home_alt_cm := alt_cm } }

/-- Modelled from the spec: reads the home position fields of the
backup region. -/
def stm32_get_backup_home (s : SysState) : Int × Int × Int :=
  (s.backup.home_lat, s.backup.home_lon, s.backup.home_alt_cm)

/-- Modelled from the spec: writes the attitude fields of the backup
region. -/
def stm32_set_attitude (s : SysState) (roll_cd pitch_cd yaw_cd : Int) : SysState :=
  { s with backup :=
      { s.backup with att_roll_cd := roll_cd, att_pitch_cd := pitch_cd,
                      att_yaw_cd := yaw_cd } }

/-- Modelled from the spec: reads the attitude fields of the backup
region. -/
def stm32_get_attitude (s : SysState) : Int × Int × Int :=
  (s.backup.att_roll_cd, s.backup.att_pitch_cd, s.backup.att_yaw_cd)

/-- Modelled from the spec: a watchdog-forced reset retains the backup
region content (it survives reset but not power loss) and latches the
watchdog reset-cause flag for the next boot. -/
def watchdog_reset_event (s : SysState) : SysState :=
  { watchdog_reset := true, backup := s.backup }

/-- `Util::was_watchdog_reset` (Util.cpp line 272): true if the reason
for the reboot was a watchdog reset. -/
def Util.was_watchdog_reset (s : SysState) : Bool :=
  stm32_was_watchdog_reset s

/-- `Util::was_watchdog_safety_off` (Util.cpp line 278):
`stm32_was_watchdog_reset() && stm32_get_boot_backup_safety_state() == false`. -/
def Util.was_watchdog_safety_off (s : SysState) : Bool :=
  stm32_was_watchdog_reset s && (stm32_get_boot_backup_safety_state s == false)

/-- `Util::was_watchdog_armed` (Util.cpp line 284):
`stm32_was_watchdog_reset() && stm32_get_boot_backup_armed() == true`. -/
def Util.was_watchdog_armed (s : SysState) : Bool :=
  stm32_was_watchdog_reset s && (stm32_get_boot_backup_armed s == true)

/-- `Util::set_backup_home_state` (Util.cpp line 299). -/
def Util.set_backup_home_state (s : SysState) (lat lon alt_cm : Int) : SysState :=
  stm32_set_backup_home s lat lon alt_cm

/-- `Util::get_backup_home_state` (Util.cpp line 305).  The C++ takes
`lat`, `lon`, `alt_cm` by reference and assigns them only inside the
watchdog branch; here the caller's variables are passed in and the
(possibly updated) values are returned alongside the Bool result. -/
def Util.get_backup_home_state (s : SysState) (lat lon alt_cm : Int) :
    Bool × Int × Int × Int :=
  if Util.was_watchdog_reset s then
    match stm32_get_backup_home s with
    | (la, lo, al) => (true, la, lo, al)
  else
    (false, lat, lon, alt_cm)

/-- `Util::set_backup_attitude` (Util.cpp line 315). -/
def Util.set_backup_attitude (s : SysState) (roll_cd pitch_cd yaw_cd : Int) : SysState :=
  stm32_set_attitude s roll_cd pitch_cd yaw_cd

/-- `Util::get_backup_attitude` (Util.cpp line 321).  Reference
parameters handled as in `Util.get_backup_home_state`. -/
def Util.get_backup_attitude (s : SysState) (roll_cd pitch_cd yaw_cd : Int) :
    Bool × Int × Int × Int :=
  if Util.was_watchdog_reset s then
    match stm32_get_attitude s with
    | (r, p, y) => (true, r, p, y)
  else
    (false, roll_cd, pitch_cd, yaw_cd)

/-- A concrete boot state whose reset cause is not watchdog-tagged but
whose backup region holds leftover values. -/
def sNoWd : SysState :=
  { watchdog_reset := false,
    backup := { armed := true, safety_state := false, home_lat := 1, home_lon := 2,
                home_alt_cm := 3, att_roll_cd := 4, att_pitch_cd := 5,
                att_yaw_cd := 6 } }

/-- A second concrete non-watchdog boot state with different leftover
backup contents. -/
def sNoWd2 : SysState :=
  { watchdog_reset := false,
    backup := { armed := false, safety_state := true, home_lat := -7, home_lon := 8,
                home_alt_cm := -9, att_roll_cd := 10, att_pitch_cd := -11,
                att_yaw_cd := 12 } }

/-- C1: for every boot in which `was_watchdog_reset()` is false,
`get_backup_home_state` and `get_backup_attitude` return absent (false),
regardless of the contents of the backup region. -/
theorem get_backup_absent_without_watchdog_reset (s : SysState)
    (h : Util.was_watchdog_reset s = false)
    (lat lon alt_cm roll_cd pitch_cd yaw_cd : Int) :
    (Util.get_backup_home_state s lat lon alt_cm).fst = false ∧
    (Util.get_backup_attitude s roll_cd pitch_cd yaw_cd).fst = false := by
  simp [Util.get_backup_home_state, Util.get_backup_attitude, h]

/-- Witness for C1 at a concrete non-watchdog boot with nonzero backup
contents. -/
theorem get_backup_absent_without_watchdog_reset_witness :
    (Util.get_backup_home_state sNoWd 100 200 300).fst = false ∧
    (Util.get_backup_attitude sNoWd 400 500 600).fst = false :=
  get_backup_absent_without_watchdog_reset sNoWd (by decide) 100 200 300 400 500 600

/-- C2: across a watchdog reset, `get_backup_home_state` returns exactly
the values most recently stored by `set_backup_home_state` before the
fault, and `get_backup_attitude` the values most recently stored by
`set_backup_attitude` (set-then-get round trip over the reset). -/
theorem backup_roundtrip_across_watchdog_reset (s : SysState)
    (lat lon alt_cm roll_cd pitch_cd yaw_cd l0 o0 a0 r0 p0 y0 : Int) :
    Util.get_backup_home_state
        (watchdog_reset_event
          (Util.set_backup_attitude
            (Util.set_backup_home_state s lat lon alt_cm) roll_cd pitch_cd yaw_cd))
        l0 o0 a0 = (true, lat, lon, alt_cm) ∧
    Util.get_backup_attitude
        (watchdog_reset_event
          (Util.set_backup_attitude
            (Util.set_backup_home_state s lat lon alt_cm) roll_cd pitch_cd yaw_cd))
        r0 p0 y0 = (true, roll_cd, pitch_cd, yaw_cd) := by
  simp [Util.get_backup_home_state, Util.get_backup_attitude,
        Util.set_backup_home_state, Util.set_backup_attitude,
        watchdog_reset_event, stm32_set_backup_home, stm32_set_attitude,
        stm32_get_backup_home, stm32_get_attitude,
        Util.was_watchdog_reset, stm32_was_watchdog_reset]

/-- C6: `was_watchdog_safety_off()` is true exactly when the reset was
watchdog-caused and the stored safety boolean is false. -/
theorem was_watchdog_safety_off_iff (s : SysState) :
    Util.was_watchdog_safety_off s = true ↔
      Util.was_watchdog_reset s = true ∧ s.backup.safety_state = false := by
  simp [Util.was_watchdog_safety_off, Util.was_watchdog_reset,
        stm32_was_watchdog_reset, stm32_get_boot_backup_safety_state]

/-- C7: `was_watchdog_armed()` is true if and only if
`was_watchdog_reset()` is true and the stored armed flag was true. -/
theorem was_watchdog_armed_iff (s : SysState) :
    Util.was_watchdog_armed s = true ↔
      Util.was_watchdog_reset s = true ∧ s.backup.armed = true := by
  simp [Util.was_watchdog_armed, Util.was_watchdog_reset,
        stm32_was_watchdog_reset, stm32_get_boot_backup_armed]

/-- C10: when `was_watchdog_reset()` is false, the getters return false
and leave the caller's output variables exactly as they were passed in. -/
theorem get_backup_leaves_outputs_unchanged (s : SysState)
    (h : Util.was_watchdog_reset s = false)
    (lat lon alt_cm roll_cd pitch_cd yaw_cd : Int) :
    Util.get_backup_home_state s lat lon alt_cm = (false, lat, lon, alt_cm) ∧
    Util.get_backup_attitude s roll_cd pitch_cd yaw_cd
      = (false, roll_cd, pitch_cd, yaw_cd) := by
  simp [Util.get_backup_home_state, Util.get_backup_attitude, h]

/-- Witness for C10 at a concrete non-watchdog boot. -/
theorem get_backup_leaves_outputs_unchanged_witness :
    Util.get_backup_home_state sNoWd2 21 22 23 = (false, 21, 22, 23) ∧
    Util.get_backup_attitude sNoWd2 24 25 26 = (false, 24, 25, 26) :=
  get_backup_leaves_outputs_unchanged sNoWd2 (by decide) 21 22 23 24 25 26

/-- Observable side effects of one `Util::flash_bootloader` call, in
order of occurrence: `hal.scheduler->expect_delay_ms(ms)`, `free(fw)`,
`hal.flash->erasepage(0)`, `hal.flash->write(addr, fw, fw_size)` and
`hal.scheduler->delay(ms)`.  Console output is not modelled. -/
inductive Event where
  | expectDelay (ms : Nat)
  | free
  | erase
  | write
  | delay (ms : Nat)
deriving DecidableEq, Repr

/-- Environment of one `flash_bootloader` call: result of
`AP_ROMFS::find_decompress("bootloader.bin", fw_size)` (the decompressed
bytes, or `none`), the live flash bytes at `hal.flash->getpageaddr(0)`,
the result of `hal.flash->erasepage(0)`, and the result of the i-th
`hal.flash->write` attempt. -/
structure FlashEnv where
  romfs : Option (List Nat)
  flash0 : List Nat
  eraseOk : Bool
  writeOk : Nat → Bool

/-- The programming loop of `Util::flash_bootloader` (Util.cpp lines
217-236): `for (uint8_t i=0; i<max_attempts; i++)` with
`max_attempts = 10`.  `i` is the current loop index, the second argument
the remaining number of iterations.  A failed write prints, delays
1000 ms and continues; a successful write frees the buffer, clears the
expect-delay signal and returns true; falling off the loop frees the
buffer, clears the signal and returns false. -/
def program_retry (writeOk : Nat → Bool) (i : Nat) : Nat → Bool × List Event
  | 0 => (false, [Event.free, Event.expectDelay 0])
  | n + 1 =>
    if writeOk i then
      (true, [Event.write, Event.free, Event.expectDelay 0])
    else
      let r := program_retry writeOk (i + 1) n
      (r.fst, Event.write :: Event.delay 1000 :: r.snd)

/-- `Util::flash_bootloader` (Util.cpp lines 187-237): set
`expect_delay_ms(5000)`, fetch the image (fail if absent), `memcmp` it
against the live flash at page 0 (up-to-date success if equal), erase
page 0 (fail if the erase fails), then the bounded programming loop.
Returns the C++ return value paired with the trace of side effects. -/
def flash_bootloader (env : FlashEnv) : Bool × List Event :=
  match env.romfs with
  | none => (false, [Event.expectDelay 5000, Event.expectDelay 0])
  | some fw =>
    if fw = env.flash0.take fw.length then
      (true, [Event.expectDelay 5000, Event.free, Event.expectDelay 0])
    else if env.eraseOk then
      let r := program_retry env.writeOk 0 10
      (r.fst, Event.expectDelay 5000 :: Event.erase :: r.snd)
    else
      (false, [Event.expectDelay 5000, Event.erase, Event.free, Event.expectDelay 0])

/-- Number of `write` events in a trace. -/
def writeCount : List Event → Nat
  | [] => 0
  | Event.write :: r => writeCount r + 1
  | Event.expectDelay _ :: r => writeCount r
  | Event.free :: r => writeCount r
  | Event.erase :: r => writeCount r
  | Event.delay _ :: r => writeCount r

/-- Number of `erase` events in a trace. -/
def eraseCount : List Event → Nat
  | [] => 0
  | Event.erase :: r => eraseCount r + 1
  | Event.expectDelay _ :: r => eraseCount r
  | Event.free :: r => eraseCount r
  | Event.write :: r => eraseCount r
  | Event.delay _ :: r => eraseCount r

/-- Number of `free` events in a trace. -/
def freeCount : List Event → Nat
  | [] => 0
  | Event.free :: r => freeCount r + 1
  | Event.expectDelay _ :: r => freeCount r
  | Event.erase :: r => freeCount r
  | Event.write :: r => freeCount r
  | Event.delay _ :: r => freeCount r

/-- True when the first scheduler/flash event of the trace that is an
`expectDelay`, `erase` or `write` is an `expectDelay` with a positive
argument: the stall allowance is raised before any blocking flash
operation. -/
def expectDelaySetBeforeFlashOps : List Event → Bool
  | [] => true
  | Event.erase :: _ => false
  | Event.write :: _ => false
  | Event.expectDelay ms :: _ => decide (0 < ms)
  | _ :: r => expectDelaySetBeforeFlashOps r

theorem program_retry_getLast (writeOk : Nat → Bool) (i n : Nat) :
    (program_retry writeOk i n).snd.getLast? = some (Event.expectDelay 0) := by
  induction n generalizing i with
  | zero => simp [program_retry]
  | succ n ih =>
    by_cases h : writeOk i = true
    · simp [program_retry, h]
    · rw [Bool.not_eq_true] at h
      have hne : (program_retry writeOk (i + 1) n).snd ≠ [] := by
        intro hnil
        have := ih (i + 1)
        rw [hnil] at this
        simp at this
      simp only [program_retry, h, Bool.false_eq_true, if_false]
      rw [List.getLast?_cons_cons]
      cases hsnd : (program_retry writeOk (i + 1) n).snd with
      | nil => exact absurd hsnd hne
      | cons a l =>
        rw [List.getLast?_cons_cons]
        rw [← hsnd]
        exact ih (i + 1)

theorem program_retry_freeCount (writeOk : Nat → Bool) (i n : Nat) :
    freeCount (program_retry writeOk i n).snd = 1 := by
  induction n generalizing i with
  | zero => simp [program_retry, freeCount]
  | succ n ih =>
    by_cases h : writeOk i = true
    · simp [program_retry, h, freeCount]
    · rw [Bool.not_eq_true] at h
      simp only [program_retry, h, Bool.false_eq_true, if_false]
      rw [freeCount, freeCount]
      exact ih (i + 1)

theorem getLast_cons_of_ne_nil {α : Type} (x : α) (l : List α) (h : l ≠ []) :
    (x :: l).getLast? = l.getLast? := by
  cases l with
  | nil => exact absurd rfl h
  | cons a r => exact List.getLast?_cons_cons

/-- Environment in which the image differs from flash, erase succeeds
and every write attempt fails. -/
def envAllFail : FlashEnv :=
  { romfs := some [170, 187], flash0 := [0, 0], eraseOk := true,
    writeOk := fun _ => false }

/-- Environment in which the fetched image equals the live flash
content. -/
def envUpToDate : FlashEnv :=
  { romfs := some [170, 187], flash0 := [170, 187, 9], eraseOk := true,
    writeOk := fun _ => true }

/-- Environment in which the bootloader resource is absent. -/
def envNoImage : FlashEnv :=
  { romfs := none, flash0 := [0], eraseOk := true, writeOk := fun _ => true }

/-- Environment in which the image differs and the first write
succeeds. -/
def envFirstTry : FlashEnv :=
  { romfs := some [170], flash0 := [0], eraseOk := true, writeOk := fun _ => true }

/-- C3: when the fetched image differs from the flash content, erase
succeeds and every programming attempt fails, exactly 10 write attempts
occur, each separated by a 1000 ms backoff, and the call returns false. -/
theorem flash_bootloader_retry_bound (env : FlashEnv) (fw : List Nat)
    (h1 : env.romfs = some fw) (h2 : fw ≠ env.flash0.take fw.length)
    (h3 : env.eraseOk = true) (h4 : ∀ i, env.writeOk i = false) :
    (flash_bootloader env).fst = false ∧
    writeCount (flash_bootloader env).snd = 10 ∧
    (flash_bootloader env).snd =
      [Event.expectDelay 5000, Event.erase,
       Event.write, Event.delay 1000, Event.write, Event.delay 1000,
       Event.write, Event.delay 1000, Event.write, Event.delay 1000,
       Event.write, Event.delay 1000, Event.write, Event.delay 1000,
       Event.write, Event.delay 1000, Event.write, Event.delay 1000,
       Event.write, Event.delay 1000, Event.write, Event.delay 1000,
       Event.free, Event.expectDelay 0] := by
  simp [flash_bootloader, h1, h2, h3, h4, program_retry, writeCount]

/-- Witness for C3 in a concrete all-writes-fail environment. -/
theorem flash_bootloader_retry_bound_witness :
    (flash_bootloader envAllFail).fst = false ∧
    writeCount (flash_bootloader envAllFail).snd = 10 ∧
    (flash_bootloader envAllFail).snd =
      [Event.expectDelay 5000, Event.erase,
       Event.write, Event.delay 1000, Event.write, Event.delay 1000,
       Event.write, Event.delay 1000, Event.write, Event.delay 1000,
       Event.write, Event.delay 1000, Event.write, Event.delay 1000,
       Event.write, Event.delay 1000, Event.write, Event.delay 1000,
       Event.write, Event.delay 1000, Event.write, Event.delay 1000,
       Event.free, Event.expectDelay 0] :=
  flash_bootloader_retry_bound envAllFail [170, 187] rfl (by decide) rfl
    (fun _ => rfl)

/-- C4: on every call the stall allowance is raised to a positive value
before any blocking flash operation, and the very last side effect on
every return path resets it to zero. -/
theorem flash_bootloader_expect_delay_invariant (env : FlashEnv) :
    expectDelaySetBeforeFlashOps (flash_bootloader env).snd = true ∧
    (flash_bootloader env).snd.getLast? = some (Event.expectDelay 0) := by
  cases henv : env.romfs with
  | none => simp [flash_bootloader, henv, expectDelaySetBeforeFlashOps]
  | some fw =>
    by_cases hcmp : fw = env.flash0.take fw.length
    · simp [flash_bootloader, henv, if_pos hcmp, expectDelaySetBeforeFlashOps]
    · by_cases her : env.eraseOk = true
      · constructor
        · simp [flash_bootloader, henv, hcmp, her, expectDelaySetBeforeFlashOps]
        · have hr := program_retry_getLast env.writeOk 0 10
          have hne : (program_retry env.writeOk 0 10).snd ≠ [] := by
            intro hnil
            rw [hnil] at hr
            simp at hr
          simp only [flash_bootloader, henv, her, if_true, hcmp, if_false]
          rw [getLast_cons_of_ne_nil _ _ (List.cons_ne_nil _ _),
              getLast_cons_of_ne_nil _ _ hne]
          exact hr
      · have her' : env.eraseOk = false := by rwa [Bool.not_eq_true] at her
        simp [flash_bootloader, henv, hcmp, her', expectDelaySetBeforeFlashOps]

/-- C5: when the fetched image is byte-identical to the live flash
content, the call returns success, the buffer is released, and neither
erase nor write is performed. -/
theorem flash_bootloader_up_to_date (env : FlashEnv) (fw : List Nat)
    (h1 : env.romfs = some fw) (h2 : fw = env.flash0.take fw.length) :
    flash_bootloader env
      = (true, [Event.expectDelay 5000, Event.free, Event.expectDelay 0]) ∧
    eraseCount (flash_bootloader env).snd = 0 ∧
    writeCount (flash_bootloader env).snd = 0 ∧
    freeCount (flash_bootloader env).snd = 1 := by
  simp [flash_bootloader, h1, if_pos h2, eraseCount, writeCount, freeCount]

/-- Witness for C5 in a concrete up-to-date environment. -/
theorem flash_bootloader_up_to_date_witness :
    flash_bootloader envUpToDate
      = (true, [Event.expectDelay 5000, Event.free, Event.expectDelay 0]) ∧
    eraseCount (flash_bootloader envUpToDate).snd = 0 ∧
    writeCount (flash_bootloader envUpToDate).snd = 0 ∧
    freeCount (flash_bootloader envUpToDate).snd = 1 :=
  flash_bootloader_up_to_date envUpToDate [170, 187] rfl (by decide)

/-- C8: when the bootloader resource is absent, the call returns false
and neither erase nor write is performed. -/
theorem flash_bootloader_resource_missing (env : FlashEnv)
    (h : env.romfs = none) :
    flash_bootloader env
      = (false, [Event.expectDelay 5000, Event.expectDelay 0]) ∧
    eraseCount (flash_bootloader env).snd = 0 ∧
    writeCount (flash_bootloader env).snd = 0 := by
  simp [flash_bootloader, h, eraseCount, writeCount]

/-- Witness for C8 in a concrete no-resource environment. -/
theorem flash_bootloader_resource_missing_witness :
    flash_bootloader envNoImage
      = (false, [Event.expectDelay 5000, Event.expectDelay 0]) ∧
    eraseCount (flash_bootloader envNoImage).snd = 0 ∧
    writeCount (flash_bootloader envNoImage).snd = 0 :=
  flash_bootloader_resource_missing envNoImage rfl

/-- C9: whenever the image fetch succeeds, the fetched buffer is freed
exactly once before the call returns, on every return path. -/
theorem flash_bootloader_frees_once (env : FlashEnv) (fw : List Nat)
    (h : env.romfs = some fw) :
    freeCount (flash_bootloader env).snd = 1 := by
  by_cases hcmp : fw = env.flash0.take fw.length
  · simp [flash_bootloader, h, if_pos hcmp, freeCount]
  · by_cases her : env.eraseOk = true
    · have hr := program_retry_freeCount env.writeOk 0 10
      simp [flash_bootloader, h, hcmp, her, freeCount, hr]
    · have her' : env.eraseOk = false := by rwa [Bool.not_eq_true] at her
      simp [flash_bootloader, h, hcmp, her', freeCount]

/-- Witness for C9 in a concrete environment where the first write
succeeds. -/
theorem flash_bootloader_frees_once_witness :
    freeCount (flash_bootloader envFirstTry).snd = 1 :=
  flash_bootloader_frees_once envFirstTry [170] rfl

end HeliPilot
